import Mathlib

/-!
Verification of the Poseidon server framework core: a shallow embedding of
the TCP session base (`src/main/tcp_session_base.cpp`), the MySQL
persistence daemon (`src/main/singletons/mysql_daemon.cpp`) and the
WebSocket servlet registry (`src/main/singletons/websocket_servlet_manager.cpp`),
with theorems settling the specified behavioural claims.
-/

namespace Poseidon

/-! ### TCP session base — `src/main/tcp_session_base.cpp`

A `TcpSessionBase` owns a socket fd, an append-only send buffer guarded by
`m_bufferMutex`, an atomic shutdown flag `m_shutdown` and an optional TLS
state `m_ssl`.  We embed the observable state and each member function as a
pure transition that additionally reports the fd syscalls it performs and
whether it nudged the epoll pump. -/

/-- Syscalls performed on the session's socket fd by the shutdown family. -/
inductive FdOp where
  /-- models a call `::shutdown(fd, SHUT_RD)` -/
  | shutRD
  /-- models a call `::shutdown(fd, SHUT_RDWR)` -/
  | shutRDWR
  deriving DecidableEq, Repr

/-- Abstract TLS state (`TcpSessionBase::SslImpl`); its internals are opaque to
the claims, only presence or absence of the state matters. -/
structure SslImpl where
  ctxId : Nat
  deriving DecidableEq, Repr

/-- Observable state of a `TcpSessionBase`: the atomic shutdown flag, the send
buffer contents (a byte sequence; `StreamBuffer::splice` appends, `peek` reads a
literal copy of up to n leading bytes, `discard` drops a leading run) and the optional TLS state. -/
structure TcpSessionBase where
  m_shutdown : Bool
  m_sendBuffer : List Nat
  m_ssl : Option SslImpl
  deriving DecidableEq, Repr

/-- Result of one session member call: the boolean return value, the updated
session state, the fd syscalls performed during the call, and whether
`EpollDaemon::touchSession` was invoked. -/
structure OpResult where
  ret : Bool
  state : TcpSessionBase
  fdOps : List FdOp
  touched : Bool
  deriving DecidableEq, Repr

/-- Embedding of `TcpSessionBase::send(StreamBuffer)`: if the shutdown flag is
set, return `false` without touching anything; otherwise splice the buffer onto
the send queue under the buffer mutex, nudge the epoll pump, and return `true`.
The embedding is a total function: the source path contains no throw. -/
def send (s : TcpSessionBase) (buffer : List Nat) : OpResult :=
  if s.m_shutdown then
    { ret := false, state := s, fdOps := [], touched := false }
  else
    { ret := true
      state := { s with m_sendBuffer := s.m_sendBuffer ++ buffer }
      fdOps := []
      touched := true }

/-- Embedding of `TcpSessionBase::hasBeenShutdown()`. -/
def hasBeenShutdown (s : TcpSessionBase) : Bool :=
  s.m_shutdown

/-- Embedding of `TcpSessionBase::shutdown()`: `ret = !atomicExchange(m_shutdown, true)`
followed unconditionally by `::shutdown(fd, SHUT_RD)`. -/
def shutdown (s : TcpSessionBase) : OpResult :=
  { ret := !s.m_shutdown
    state := { s with m_shutdown := true }
    fdOps := [FdOp.shutRD]
    touched := false }

/-- Embedding of `TcpSessionBase::forceShutdown()`: `ret = !atomicExchange(m_shutdown, true)`
followed unconditionally by `::shutdown(fd, SHUT_RDWR)`. -/
def forceShutdown (s : TcpSessionBase) : OpResult :=
  { ret := !s.m_shutdown
    state := { s with m_shutdown := true }
    fdOps := [FdOp.shutRDWR]
    touched := false }

/-- Embedding of `TcpSessionBase::shutdown(StreamBuffer)`: exchange the flag;
only if this call made the transition, splice the final bytes onto the send
buffer under the mutex; then unconditionally `::shutdown(fd, SHUT_RD)`. -/
def shutdownWith (s : TcpSessionBase) (buffer : List Nat) : OpResult :=
  let r := !s.m_shutdown
  { ret := r
    state :=
      if r then
        { s with m_shutdown := true, m_sendBuffer := s.m_sendBuffer ++ buffer }
      else
        { s with m_shutdown := true }
    fdOps := [FdOp.shutRD]
    touched := false }

/-- Which engine `TcpSessionBase::doRead` / `doWrite` hand the bytes to. -/
inductive IoPath where
  /-- models dispatching through `m_ssl->doRead` / `m_ssl->doWrite` -/
  | tls
  /-- models a plain `::recv` / `::send` on the raw fd -/
  | plain
  deriving DecidableEq, Repr

/-- Embedding of the dispatch in `TcpSessionBase::doRead` (and the identical
dispatch in `doWrite`): TLS engine iff `m_ssl` is non-null. -/
def ioPath (s : TcpSessionBase) : IoPath :=
  if s.m_ssl.isSome then IoPath.tls else IoPath.plain

/-- Embedding of `TcpSessionBase::initSslClient()`: constructs an SSL context
and state and stores it in `m_ssl`. -/
def initSslClient (s : TcpSessionBase) : TcpSessionBase :=
  { s with m_ssl := some { ctxId := 0 } }

/-- Embedding of `TcpSessionBase::initSslServer(certPath, privKeyPath)`.  The
body of this function in the source is empty: both path arguments are ignored
and no field of the session changes. -/
def initSslServer (certPath privKeyPath : String) (s : TcpSessionBase) :
    TcpSessionBase :=
  s

/-- Events performed by `TcpSessionBase::doWrite`, in program order, on the
buffer mutex, the send buffer, and the socket. -/
inductive WriteEv where
  /-- models an acquisition of `m_bufferMutex` -/
  | lockBuf
  /-- models a release of `m_bufferMutex` -/
  | unlockBuf
  /-- models `m_sendBuffer.peek(hint, hintSize)` returning n bytes -/
  | peek (n : Nat)
  /-- models the write syscall `::send` or `SSL_write` of n bytes -/
  | sysWrite (n : Nat)
  /-- models `m_sendBuffer.discard(ret)` -/
  | discard (n : Nat)
  deriving DecidableEq, Repr

/-- Embedding of the event trace of `TcpSessionBase::doWrite(lock, hint, hintSize)`,
transcribed line by line from the source: acquire `m_bufferMutex` (the
scoped-lock swap), peek up to `hintSize` bytes, `lock.unlock()`, return 0 when
nothing was peeked; otherwise `lock.lock()` again, perform the write syscall,
and on a positive kernel return discard the written run.  `sendRet` is the
value returned by `::send` / `SSL_write`. -/
def doWriteEvents (s : TcpSessionBase) (hintSize : Nat) (sendRet : Int) :
    List WriteEv :=
  let size := min hintSize s.m_sendBuffer.length
  let pre := [WriteEv.lockBuf, WriteEv.peek size, WriteEv.unlockBuf]
  if size = 0 then
    pre
  else
    pre ++ [WriteEv.lockBuf, WriteEv.sysWrite size] ++
      (if sendRet > 0 then [WriteEv.discard sendRet.toNat] else [])

/-- Given the current lock depth, decide whether some write syscall in the
trace happens while the buffer mutex is held. -/
def heldAtWrite : Nat → List WriteEv → Bool
  | _, [] => false
  | d, WriteEv.lockBuf :: es => heldAtWrite (d + 1) es
  | d, WriteEv.unlockBuf :: es => heldAtWrite (d - 1) es
  | d, WriteEv.sysWrite _ :: es => (decide (0 < d)) || heldAtWrite d es
  | d, WriteEv.peek _ :: es => heldAtWrite d es
  | d, WriteEv.discard _ :: es => heldAtWrite d es

/-- Whether the buffer mutex is held across the write syscall in a `doWrite` trace. -/
def mutexHeldAcrossWrite (es : List WriteEv) : Bool :=
  heldAtWrite 0 es

/-- A freshly accepted plain session: flag clear, empty send buffer, no TLS. -/
def freshSession : TcpSessionBase :=
  { m_shutdown := false, m_sendBuffer := [], m_ssl := none }

/-! ### MySQL persistence daemon — `src/main/singletons/mysql_daemon.cpp`

A single worker thread (`threadProc`) services a save queue `g_saveQueue`
and a load queue `g_loadQueue` under one mutex `g_mutex`, with two condition
variables `g_newObjectAvail` and `g_queueEmpty`.  List nodes have stable
addresses; we model an address as a `Nat` tag `addr` on each queue node, and
the `MySqlObjectBase::m_context` atomic pointer as a map from object id to
the address it currently holds (`none` models a null context). -/

/-- Embedding of `AsyncSaveItem`: the node address (models `&item`), the
object the intent refers to, and the earliest-dispatch timestamp in
microseconds of the monotonic clock. -/
structure AsyncSaveItem where
  addr : Nat
  obj : Nat
  timeStamp : Nat
  deriving DecidableEq, Repr

/-- Embedding of `AsyncLoadItem`: object, filter string, and the optional
completion callback (a `none` callback models an empty function object). -/
structure AsyncLoadItem where
  obj : Nat
  filter : String
  callback : Option Nat
  deriving DecidableEq, Repr

/-- The two condition variables of the daemon. -/
inductive CondVar where
  | newObjectAvail
  | queueEmpty
  deriving DecidableEq, Repr

/-- The two queues guarded by `g_mutex`. -/
structure DaemonQueues where
  g_saveQueue : List AsyncSaveItem
  g_loadQueue : List AsyncLoadItem
  deriving DecidableEq, Repr

/-- Whether both daemon queues are drained. -/
def bothQueuesEmpty (q : DaemonQueues) : Bool :=
  q.g_saveQueue.isEmpty && q.g_loadQueue.isEmpty

/-- What the head inspection of the save queue decides in one dispatch step. -/
inductive SaveStepAction where
  /-- head timestamp still in the future (or queue empty): no save is ready -/
  | notReady
  /-- head removed as a tombstone, without any database save -/
  | dropTombstone
  /-- head removed and `syncSave` executed on its object -/
  | execSave (obj : Nat)
  deriving DecidableEq, Repr

/-- Embedding of the save-queue head inspection in `threadProc` (the
`!g_saveQueue.empty()` branch): if the head's timestamp is after `now`
(`getMonoClock()`), skip to the loads leaving the queue intact; otherwise the
head node is spliced onto the free pool, and it is either a tombstone — its
address differs from its object's current atomic context — dropped without a
save, or the live intent whose save is executed.  `ctx` is the view of every
object's `m_context` pointer. -/
def saveDispatchStep (now : Nat) (ctx : Nat → Option Nat) :
    List AsyncSaveItem → SaveStepAction × List AsyncSaveItem
  | [] => (SaveStepAction.notReady, [])
  | head :: rest =>
    if head.timeStamp > now then
      (SaveStepAction.notReady, head :: rest)
    else if ctx head.obj ≠ some head.addr then
      (SaveStepAction.dropTombstone, rest)
    else
      (SaveStepAction.execSave head.obj, rest)

/-- What one pass of the worker's inner dequeue loop selected and executed. -/
inductive WorkerAction where
  /-- a live save matured: `syncSave` ran on the object -/
  | didSave (obj : Nat)
  /-- the save head was a tombstone and was dropped; a queued load
      (if any) was then serviced in the same pass -/
  | didLoad (obj : Nat) (filter : String)
  /-- nothing selectable and the daemon is still running: `timed_wait`
      on `g_newObjectAvail` for up to one second -/
  | waited
  /-- nothing selectable and `g_running` is false: the worker loop exits -/
  | exitLoop
  deriving DecidableEq, Repr

/-- Result of one pass of the worker loop: what it did, the queues afterwards,
every condition variable it notified during the pass, and the load-completion
jobs it pended. -/
structure WorkerStepResult where
  action : WorkerAction
  queues : DaemonQueues
  notified : List CondVar
  pendedJobs : List Nat
  deriving DecidableEq, Repr

/-- The load-queue phase of the worker pass (label `skip:` onward in
`threadProc`): service the load head if one exists; otherwise wait on
`g_newObjectAvail` when still running, or exit.  No condition variable is
notified anywhere on these paths. -/
def loadPhase (running : Bool) (q : DaemonQueues) : WorkerStepResult :=
  match q.g_loadQueue with
  | ali :: rest =>
    { action := WorkerAction.didLoad ali.obj ali.filter
      queues := { q with g_loadQueue := rest }
      notified := []
      pendedJobs := ali.callback.toList }
  | [] =>
    if running then
      { action := WorkerAction.waited, queues := q, notified := [], pendedJobs := [] }
    else
      { action := WorkerAction.exitLoop, queues := q, notified := [], pendedJobs := [] }

/-- Embedding of one pass of the worker loop body in `threadProc`: inspect the
save-queue head; a matured live save is executed (`syncSave`), a tombstone is
dropped and the pass falls through to the load phase, an immature head also
falls through to the load phase with the save queue intact.  A serviced load
runs `syncLoad`, enables auto-saving, and pends the completion callback as a
job.  The body of `threadProc` contains no `notify_one`/`notify_all` call, so
`notified` is empty on every path. -/
def workerStep (now : Nat) (running : Bool) (ctx : Nat → Option Nat)
    (q : DaemonQueues) : WorkerStepResult :=
  let r := saveDispatchStep now ctx q.g_saveQueue
  match r.1 with
  | SaveStepAction.execSave o =>
    { action := WorkerAction.didSave o
      queues := { q with g_saveQueue := r.2 }
      notified := []
      pendedJobs := [] }
  | _ => loadPhase running { q with g_saveQueue := r.2 }

/-- State touched by `MySqlDaemon::pendForSaving`: the save queue and the
per-object atomic context pointers. -/
structure DaemonSaveState where
  g_saveQueue : List AsyncSaveItem
  ctx : Nat → Option Nat

/-- Embedding of `MySqlDaemon::pendForSaving(object)` under `g_mutex`: a node
(recycled from `g_savePool` or freshly allocated, hence with an address not in
the queue) is spliced onto the queue's tail, stamped
`getMonoClock() + g_databaseSaveDelay * 1000` (the delay is configured in
milliseconds, the clock runs in microseconds), and the object's atomic
`m_context` is pointed at the new node.  `g_newObjectAvail` is notified. -/
def pendForSaving (st : DaemonSaveState) (obj newAddr now saveDelay : Nat) :
    DaemonSaveState :=
  { g_saveQueue :=
      st.g_saveQueue ++ [{ addr := newAddr, obj := obj, timeStamp := now + saveDelay * 1000 }]
    ctx := fun o => if o = obj then some newAddr else st.ctx o }

/-- A queue node is live when its address equals its object's current atomic
context pointer (`atomicLoad(head.object->m_context) == &head`). -/
def isLive (ctx : Nat → Option Nat) (item : AsyncSaveItem) : Bool :=
  ctx item.obj == some item.addr

/-- The queued intents of object `o` that are live in state `st`. -/
def liveItems (st : DaemonSaveState) (o : Nat) : List AsyncSaveItem :=
  st.g_saveQueue.filter (fun it => it.obj == o && isLive st.ctx it)

/-- One failure-handling step of the connect loop in `getMySqlConnection`:
given the cap `g_databaseMaxReconnDelay` and the current `reconnectDelay`,
return the milliseconds slept before the next attempt and the new delay.  A
zero delay (only the first failure) sleeps not at all and sets the delay
to 1; otherwise the code sleeps `reconnectDelay` ms, doubles it, and clamps
it to the cap. -/
def reconnStep (cap d : Nat) : Nat × Nat :=
  if d = 0 then (0, 1)
  else (d, if d * 2 > cap then cap else d * 2)

/-- Milliseconds slept between consecutive connect attempts when the first `n`
attempts of `getMySqlConnection` all fail, starting from delay `d` (the loop
enters with `reconnectDelay = 0`).  Element `k` is the gap between attempt
`k + 1` and attempt `k + 2`. -/
def reconnSleeps : Nat → Nat → Nat → List Nat
  | 0, _, _ => []
  | n + 1, cap, d =>
    (reconnStep cap d).1 :: reconnSleeps n cap (reconnStep cap d).2

/-- Absolute time (ms after the first attempt) of each of the first `n`
connect attempts when every attempt fails: attempt `k` happens after the
sleeps that follow failures `1 .. k`. -/
def attemptTimes (n cap : Nat) : List Nat :=
  (List.range n).map (fun k => (reconnSleeps k cap 0).sum)

/-! ### WebSocket servlet registry — `src/main/singletons/websocket_servlet_manager.cpp`

The registry `g_servlets` maps URIs to weak servlet handles under a
shared/exclusive lock.  We model each weak pointer abstractly: a weak servlet
handle is a servlet id whose upgradeability is given by an environment, and a
servlet's weak dependency is either `none` — a default-constructed
`weak_ptr`, which the source detects through owner ordering
(`(m_dependency < weak_ptr()) || (weak_ptr() < m_dependency)` being false)
— or `some tok` for a dependency token whose liveness the environment gives. -/

/-- Embedding of a `WebSocketServlet`: its URI, the weak dependency slot
(`none` models the unset sentinel), and the registered callback, identified by
an id. -/
structure WebSocketServlet where
  uri : String
  dependency : Option Nat
  callbackId : Nat
  deriving DecidableEq, Repr

/-- Liveness environment for the weak pointers of the registry: which servlet
handles still upgrade, what servlet object each id denotes, and which
dependency tokens are still alive. -/
structure RegistryEnv where
  servletAlive : Nat → Bool
  servletOf : Nat → WebSocketServlet
  depAlive : Nat → Bool

/-- Embedding of `WebSocketServlet::lock(lockedDep)`: when the dependency slot
is owner-distinct from the empty weak pointer (not the sentinel), upgrade it;
a failed upgrade yields null, a successful one stores the strong dependency in
`lockedDep` and yields the callback.  A sentinel slot yields the callback
without touching `lockedDep`.  The result pairs the locked dependency with the
callback id. -/
def lockServlet (env : RegistryEnv) (s : WebSocketServlet) :
    Option (Option Nat × Nat) :=
  match s.dependency with
  | some tok =>
    if env.depAlive tok then some (some tok, s.callbackId) else none
  | none => some (none, s.callbackId)

/-- Embedding of `WebSocketServletManager::getServlet(lockedDep, uri)` under
the shared lock: find the map entry (null when absent), upgrade the weak
servlet handle (null when expired), then delegate to `WebSocketServlet::lock`.
The registry contents are an association list from URI to servlet id. -/
def getServlet (env : RegistryEnv) (servlets : List (String × Nat))
    (uri : String) : Option (Option Nat × Nat) :=
  match servlets.lookup uri with
  | none => none
  | some sid =>
    match if env.servletAlive sid then some (env.servletOf sid) else none with
    | none => none
    | some servlet => lockServlet env servlet

/-! ### Sample environments used to evaluate the embeddings on concrete inputs -/

/-- A concrete context map: object 7 currently points at queue node address 1,
every other object has a null context. -/
def ctxSample : Nat → Option Nat :=
  fun o => if o = 7 then some 1 else none

/-- A concrete registry environment: servlet id 3 upgrades, every servlet id
denotes a servlet at URI "/x" with dependency token 9 and callback 5, and
token 9 is alive. -/
def envSample : RegistryEnv :=
  { servletAlive := fun sid => sid == 3
    servletOf := fun _ => { uri := "/x", dependency := some 9, callbackId := 5 }
    depAlive := fun tok => tok == 9 }

/-! ### Theorems settling the claims -/

/-- C1: the claim states that `doWrite` releases the buffer mutex for the
duration of the write syscall and never holds it across the write.  The source
releases the mutex after the peek but then calls `lock.lock()` again
immediately before the `::send` / `SSL_write` call, so the mutex is in fact
held across the write syscall.  Evaluated on a session with one queued byte,
a hint window of 16 bytes and a kernel return of 1. -/
theorem doWrite_mutex_held_across_write :
    mutexHeldAcrossWrite
      (doWriteEvents { m_shutdown := false, m_sendBuffer := [42], m_ssl := none }
        16 1) = true := by
  decide

/-- C6: the claim states that `initSslServer` establishes a server-side TLS
state from the certificate and private-key paths so that subsequent I/O goes
through the TLS engine.  The body of `initSslServer` in the source is empty:
the session is returned unchanged, a fresh session keeps `m_ssl = null`, and
`doRead` / `doWrite` keep dispatching to plain `::recv` / `::send`. -/
theorem initSslServer_leaves_session_plain :
    (initSslServer "cert.pem" "key.pem" freshSession).m_ssl = none ∧
    ioPath (initSslServer "cert.pem" "key.pem" freshSession) = IoPath.plain ∧
    ∀ s : TcpSessionBase, initSslServer "cert.pem" "key.pem" s = s :=
  ⟨rfl, rfl, fun _ => rfl⟩

/-- C8 counterexample: the claim states the fd is half-closed (graceful) or
closed in both directions (forceful) exactly once per session.  Two
consecutive `shutdown()` calls on a fresh session issue the `SHUT_RD` syscall
twice — once per call — even though only the first call made the flag
transition and returned true. -/
theorem shutdown_syscall_issued_twice :
    (shutdown freshSession).ret = true ∧
    (shutdown (shutdown freshSession).state).ret = false ∧
    (shutdown freshSession).fdOps ++ (shutdown (shutdown freshSession).state).fdOps
      = [FdOp.shutRD, FdOp.shutRD] ∧
    ((shutdown freshSession).fdOps
      ++ (shutdown (shutdown freshSession).state).fdOps).length ≠ 1 := by
  decide

/-- C8 amended: each of `shutdown()`, `forceShutdown()` and
`shutdown(StreamBuffer)` returns true iff that caller performed the first
transition of the atomic shutdown flag, and each issues its fd syscall
(`SHUT_RD`, `SHUT_RDWR`, `SHUT_RD` respectively) unconditionally on every
call, so the fd shutdown is per-call, not once per session. -/
theorem shutdown_family_flag_transition (s : TcpSessionBase) (buffer : List Nat) :
    ((shutdown s).ret = !s.m_shutdown ∧ (shutdown s).state.m_shutdown = true ∧
      (shutdown s).fdOps = [FdOp.shutRD]) ∧
    ((forceShutdown s).ret = !s.m_shutdown ∧
      (forceShutdown s).state.m_shutdown = true ∧
      (forceShutdown s).fdOps = [FdOp.shutRDWR]) ∧
    ((shutdownWith s buffer).ret = !s.m_shutdown ∧
      (shutdownWith s buffer).state.m_shutdown = true ∧
      (shutdownWith s buffer).fdOps = [FdOp.shutRD]) := by
  refine ⟨⟨rfl, rfl, rfl⟩, ⟨rfl, rfl, rfl⟩, rfl, ?_, rfl⟩
  by_cases h : s.m_shutdown <;> simp [shutdownWith, h]

/-- C9: `send(buffer)` on a shut-down session returns false and changes
nothing; otherwise it splices the bytes onto the send buffer, nudges the
epoll pump, and returns true.  The embedding is a total function, so the
rejection is reported only through the return value, never by raising. -/
theorem send_contract (s : TcpSessionBase) (buffer : List Nat) :
    (s.m_shutdown = true →
      send s buffer = { ret := false, state := s, fdOps := [], touched := false }) ∧
    (s.m_shutdown = false →
      send s buffer =
        { ret := true, state := { s with m_sendBuffer := s.m_sendBuffer ++ buffer },
          fdOps := [], touched := true }) := by
  constructor <;> intro h <;> simp [send, h]

/-- Witness for C9 at concrete sessions on both sides of the shutdown flag. -/
theorem send_contract_witness :
    send { m_shutdown := true, m_sendBuffer := [7], m_ssl := none } [1] =
      { ret := false
        state := { m_shutdown := true, m_sendBuffer := [7], m_ssl := none }
        fdOps := [], touched := false } ∧
    send { m_shutdown := false, m_sendBuffer := [7], m_ssl := none } [1] =
      { ret := true
        state := { m_shutdown := false, m_sendBuffer := [7, 1], m_ssl := none }
        fdOps := [], touched := true } :=
  ⟨(send_contract { m_shutdown := true, m_sendBuffer := [7], m_ssl := none } [1]).1 rfl,
   (send_contract { m_shutdown := false, m_sendBuffer := [7], m_ssl := none } [1]).2 rfl⟩

/-- C10: when the shutdown flag is already set, `shutdown(StreamBuffer)`
returns false and leaves the send buffer unchanged — the supplied final bytes
are spliced only by the call that performs the first flag transition. -/
theorem shutdownWith_rejected_after_shutdown (s : TcpSessionBase)
    (buffer : List Nat) (h : s.m_shutdown = true) :
    (shutdownWith s buffer).ret = false ∧
    (shutdownWith s buffer).state.m_sendBuffer = s.m_sendBuffer := by
  simp [shutdownWith, h]

/-- Witness for C10 on a session that is already shut down. -/
theorem shutdownWith_rejected_after_shutdown_witness :
    (shutdownWith { m_shutdown := true, m_sendBuffer := [7], m_ssl := none } [9]).ret
      = false ∧
    (shutdownWith { m_shutdown := true, m_sendBuffer := [7], m_ssl := none }
        [9]).state.m_sendBuffer = [7] :=
  shutdownWith_rejected_after_shutdown
    { m_shutdown := true, m_sendBuffer := [7], m_ssl := none } [9] rfl

/-- C2: one dispatch step on a non-empty save queue.  A head whose timestamp
is in the future executes no save and leaves the queue intact; a matured head
whose address differs from its object's current atomic context is removed
without a database save; otherwise the head is the live intent and its save is
executed. -/
theorem saveDispatchStep_cases (now : Nat) (ctx : Nat → Option Nat)
    (head : AsyncSaveItem) (rest : List AsyncSaveItem) :
    (now < head.timeStamp →
      saveDispatchStep now ctx (head :: rest)
        = (SaveStepAction.notReady, head :: rest)) ∧
    (head.timeStamp ≤ now → ctx head.obj ≠ some head.addr →
      saveDispatchStep now ctx (head :: rest)
        = (SaveStepAction.dropTombstone, rest)) ∧
    (head.timeStamp ≤ now → ctx head.obj = some head.addr →
      saveDispatchStep now ctx (head :: rest)
        = (SaveStepAction.execSave head.obj, rest)) := by
  refine ⟨fun h => ?_, fun h hne => ?_, fun h he => ?_⟩
  · simp [saveDispatchStep, h]
  · simp [saveDispatchStep, Nat.not_lt.mpr h, hne]
  · simp [saveDispatchStep, Nat.not_lt.mpr h, he]

/-- Witness for C2: the three dispatch outcomes on concrete queues, with
object 7 whose context points at node address 1. -/
theorem saveDispatchStep_cases_witness :
    saveDispatchStep 50 ctxSample [⟨1, 7, 100⟩]
      = (SaveStepAction.notReady, [⟨1, 7, 100⟩]) ∧
    saveDispatchStep 200 ctxSample [⟨2, 7, 100⟩]
      = (SaveStepAction.dropTombstone, []) ∧
    saveDispatchStep 200 ctxSample [⟨1, 7, 100⟩]
      = (SaveStepAction.execSave 7, []) :=
  ⟨(saveDispatchStep_cases 50 ctxSample ⟨1, 7, 100⟩ []).1 (by decide),
   (saveDispatchStep_cases 200 ctxSample ⟨2, 7, 100⟩ []).2.1 (by decide) (by decide),
   (saveDispatchStep_cases 200 ctxSample ⟨1, 7, 100⟩ []).2.2 (by decide) (by decide)⟩

/-- Helper: in a queue whose node addresses are pairwise distinct, a predicate
that forces a single address selects at most one node. -/
theorem filter_by_addr_le_one (l : List AsyncSaveItem) (c : Nat)
    (hn : (l.map AsyncSaveItem.addr).Nodup)
    (p : AsyncSaveItem → Bool) (hp : ∀ a, p a = true → a.addr = c) :
    (l.filter p).length ≤ 1 := by
  induction l with
  | nil => simp
  | cons a l ih =>
    rw [List.map_cons, List.nodup_cons] at hn
    cases ha : p a with
    | false =>
      rw [List.filter_cons_of_neg (by simp [ha])]
      exact ih hn.2
    | true =>
      rw [List.filter_cons_of_pos (by simp [ha])]
      have hnil : l.filter p = [] := by
        rw [List.filter_eq_nil_iff]
        intro b hb hpb
        exfalso
        apply hn.1
        have hmem : b.addr ∈ l.map AsyncSaveItem.addr :=
          List.mem_map_of_mem AsyncSaveItem.addr hb
        rwa [hp b (by simpa using hpb), ← hp a ha] at hmem
      simp [hnil]

/-- C3: `pendForSaving` appends a fresh node stamped
`now + saveDelay * 1000` (µs) to the queue tail, points the object's atomic
context at it — making it the live intent — and thereby turns every earlier
queued intent for the same object into a tombstone; under distinct node
addresses, every object has at most one live intent in the resulting queue. -/
theorem pendForSaving_coalesces (st : DaemonSaveState)
    (obj newAddr now saveDelay : Nat)
    (hnd : (st.g_saveQueue.map AsyncSaveItem.addr).Nodup)
    (hfresh : newAddr ∉ st.g_saveQueue.map AsyncSaveItem.addr) :
    (pendForSaving st obj newAddr now saveDelay).g_saveQueue =
      st.g_saveQueue
        ++ [{ addr := newAddr, obj := obj, timeStamp := now + saveDelay * 1000 }] ∧
    (pendForSaving st obj newAddr now saveDelay).ctx obj = some newAddr ∧
    isLive (pendForSaving st obj newAddr now saveDelay).ctx
      { addr := newAddr, obj := obj, timeStamp := now + saveDelay * 1000 } = true ∧
    (∀ it ∈ st.g_saveQueue, it.obj = obj →
      isLive (pendForSaving st obj newAddr now saveDelay).ctx it = false) ∧
    (∀ o, (liveItems (pendForSaving st obj newAddr now saveDelay) o).length ≤ 1) := by
  refine ⟨rfl, by simp [pendForSaving], by simp [isLive, pendForSaving], ?_, ?_⟩
  · intro it hit hobj
    have haddr : it.addr ≠ newAddr := by
      intro hEq
      exact hfresh (hEq ▸ List.mem_map_of_mem AsyncSaveItem.addr hit)
    simp [isLive, pendForSaving, hobj]
    exact fun hEq => haddr hEq.symm
  · intro o
    have hnd' : ((pendForSaving st obj newAddr now saveDelay).g_saveQueue.map
        AsyncSaveItem.addr).Nodup := by
      simp only [pendForSaving, List.map_append, List.map_cons, List.map_nil]
      rw [List.nodup_append]
      exact ⟨hnd, List.nodup_singleton newAddr,
        by simpa [List.disjoint_singleton] using hfresh⟩
    unfold liveItems
    cases hc : (pendForSaving st obj newAddr now saveDelay).ctx o with
    | none =>
      rw [List.filter_eq_nil_iff.mpr ?_]
      · simp
      · intro it hit hp
        simp [isLive] at hp
        rw [hp.1, hc] at hp
        exact Option.noConfusion hp.2
    | some c =>
      apply filter_by_addr_le_one _ c hnd'
      intro a hpa
      simp [isLive] at hpa
      rw [hpa.1, hc] at hpa
      exact (Option.some.injEq _ _ ▸ hpa.2).symm

/-- Witness for C3: pending object 7 onto a queue holding its earlier live
intent at node 1, using the fresh node address 2. -/
theorem pendForSaving_coalesces_witness :
    (pendForSaving ⟨[⟨1, 7, 100⟩], ctxSample⟩ 7 2 50 3).ctx 7 = some 2 ∧
    isLive (pendForSaving ⟨[⟨1, 7, 100⟩], ctxSample⟩ 7 2 50 3).ctx ⟨1, 7, 100⟩
      = false ∧
    (pendForSaving ⟨[⟨1, 7, 100⟩], ctxSample⟩ 7 2 50 3).g_saveQueue
      = [⟨1, 7, 100⟩, ⟨2, 7, 3050⟩] :=
  ⟨(pendForSaving_coalesces ⟨[⟨1, 7, 100⟩], ctxSample⟩ 7 2 50 3
      (by decide) (by decide)).2.1,
   (pendForSaving_coalesces ⟨[⟨1, 7, 100⟩], ctxSample⟩ 7 2 50 3
      (by decide) (by decide)).2.2.2.1 ⟨1, 7, 100⟩ (by simp) rfl,
   (pendForSaving_coalesces ⟨[⟨1, 7, 100⟩], ctxSample⟩ 7 2 50 3
      (by decide) (by decide)).1⟩

/-- C4: the claim states that the worker signals the second condition
variable (`g_queueEmpty`) whenever both queues become drained.  The body of
`threadProc` contains no notify call at all: a pass that executes the last
queued save and leaves both queues empty notifies nothing, and no pass of the
worker ever notifies any condition variable, so a `waitForAllAsyncOperations`
caller blocked on `g_queueEmpty` is never woken by the worker. -/
theorem workerStep_never_signals_queueEmpty :
    (∀ (now : Nat) (running : Bool) (ctx : Nat → Option Nat) (q : DaemonQueues),
      (workerStep now running ctx q).notified = []) ∧
    bothQueuesEmpty (workerStep 200 true ctxSample
      { g_saveQueue := [⟨1, 7, 100⟩], g_loadQueue := [] }).queues = true ∧
    (workerStep 200 true ctxSample
      { g_saveQueue := [⟨1, 7, 100⟩], g_loadQueue := [] }).action
      = WorkerAction.didSave 7 ∧
    CondVar.queueEmpty ∉ (workerStep 200 true ctxSample
      { g_saveQueue := [⟨1, 7, 100⟩], g_loadQueue := [] }).notified := by
  refine ⟨?_, by decide, by decide, by decide⟩
  intro now running ctx q
  unfold workerStep loadPhase
  rcases saveDispatchStep now ctx q.g_saveQueue with ⟨act, rest⟩
  cases act <;> simp <;>
    rcases q.g_loadQueue with _ | ⟨ali, tail⟩ <;> simp <;>
      cases running <;> simp

/-- C5 counterexample: the claim states that failed connection attempts are
separated by delays starting at 1 ms, so attempts occur at t = 0, 1 ms, 2 ms,
4 ms, ….  In the source the first failure sets `reconnectDelay` from 0 to 1
without sleeping, so the second attempt follows the first immediately; with
`database_max_reconn_delay = 60000` the first five attempts occur at
t = 0, 0, 1, 3, 7 ms, matching neither the claimed absolute times nor the
cumulative sums of the claimed gaps. -/
theorem reconnBackoff_counterexample :
    reconnSleeps 1 60000 0 = [0] ∧
    attemptTimes 5 60000 = [0, 0, 1, 3, 7] ∧
    attemptTimes 5 60000 ≠ [0, 1, 2, 4, 8] ∧
    attemptTimes 5 60000 ≠ [0, 1, 3, 7, 15] := by
  decide

/-- Helper: one failure step of the connect loop maps the clamped power
`min (2 ^ k) cap` to a sleep of that length and the clamped next power. -/
theorem reconnStep_min_pow (cap k : Nat) (hcap : 1 ≤ cap) :
    reconnStep cap (min (2 ^ k) cap) = (min (2 ^ k) cap, min (2 ^ (k + 1)) cap) := by
  have h1 : 1 ≤ 2 ^ k := Nat.one_le_two_pow
  have hpow : 2 ^ (k + 1) = 2 ^ k * 2 := by rw [Nat.pow_succ]
  unfold reconnStep
  rw [if_neg (by omega)]
  have hbody : (if min (2 ^ k) cap * 2 > cap then cap else min (2 ^ k) cap * 2)
      = min (2 ^ (k + 1)) cap := by
    split <;> omega
  rw [hbody]

/-- Helper: unrolling the sleep sequence from any clamped power of two. -/
theorem reconnSleeps_from_pow (cap : Nat) (hcap : 1 ≤ cap) :
    ∀ n k, reconnSleeps n cap (min (2 ^ k) cap) =
      (List.range n).map (fun i => min (2 ^ (k + i)) cap) := by
  intro n
  induction n with
  | zero => intro k; simp [reconnSleeps]
  | succ n ih =>
    intro k
    show (reconnStep cap (min (2 ^ k) cap)).1
        :: reconnSleeps n cap (reconnStep cap (min (2 ^ k) cap)).2 = _
    rw [reconnStep_min_pow cap k hcap, ih (k + 1),
      List.range_succ_eq_map, List.map_cons, List.map_map]
    refine congrArg₂ _ (by simp) (List.map_congr_left ?_)
    intro i _
    show min (2 ^ ((k + 1) + i)) cap = min (2 ^ (k + (i + 1))) cap
    rw [show (k + 1) + i = k + (i + 1) by omega]

/-- C5 amended: in a run where every connect attempt fails, the loop retries
immediately after the first failure (a 0 ms gap), and from the second failure
on, consecutive attempts are separated by 1 ms, 2 ms, 4 ms, …, doubling after
each failure and clamped above by `database_max_reconn_delay`; attempts thus
occur at the cumulative times t = 0, 0, 1 ms, 3 ms, 7 ms, …. -/
theorem reconnSleeps_closed_form (n cap : Nat) (hcap : 1 ≤ cap) :
    reconnSleeps (n + 1) cap 0 = 0 :: (List.range n).map (fun i => min (2 ^ i) cap) := by
  show (reconnStep cap 0).1 :: reconnSleeps n cap (reconnStep cap 0).2 = _
  have hstep : reconnStep cap 0 = (0, 1) := rfl
  have h1 : (1 : Nat) = min (2 ^ 0) cap := by
    rw [Nat.pow_zero]
    omega
  rw [hstep, h1, reconnSleeps_from_pow cap hcap n 0]
  simp

/-- Witness for the amended C5 with a cap of 5 ms: the sleeps after four
consecutive failures are 0, 1, 2, 4. -/
theorem reconnSleeps_closed_form_witness :
    reconnSleeps 4 5 0 = 0 :: (List.range 3).map (fun i => min (2 ^ i) 5) :=
  reconnSleeps_closed_form 3 5 (by decide)

/-- C7: `getServlet(uri)` yields the registered callback together with the
upgraded dependency handle iff the registry holds an entry for the URI, the
weak servlet handle upgrades, and the dependency slot is either the unset
sentinel (yielding no locked dependency) or a weak dependency that upgrades
(yielding it locked); on any of these failures it yields none. -/
theorem getServlet_spec (env : RegistryEnv) (servlets : List (String × Nat))
    (uri : String) (dep : Option Nat) (cb : Nat) :
    getServlet env servlets uri = some (dep, cb) ↔
      ∃ sid, servlets.lookup uri = some sid ∧ env.servletAlive sid = true ∧
        cb = (env.servletOf sid).callbackId ∧
        (((env.servletOf sid).dependency = none ∧ dep = none) ∨
         (∃ tok, (env.servletOf sid).dependency = some tok ∧
            env.depAlive tok = true ∧ dep = some tok)) := by
  unfold getServlet
  cases h : servlets.lookup uri with
  | none => simp
  | some sid =>
    simp only [h, Option.some.injEq, exists_eq_left']
    cases ha : env.servletAlive sid with
    | false => simp [ha]
    | true =>
      simp only [ha, if_true, true_and]
      unfold lockServlet
      cases hd : (env.servletOf sid).dependency with
      | none =>
        simp [hd]
        exact ⟨fun ⟨h1, h2⟩ => ⟨h2.symm, h1.symm⟩, fun ⟨h1, h2⟩ => ⟨h2.symm, h1.symm⟩⟩
      | some tok =>
        cases hdep : env.depAlive tok with
        | false => simp [hd, hdep]
        | true =>
          simp [hd, hdep]
          exact ⟨fun ⟨h1, h2⟩ => ⟨h2.symm, h1.symm⟩, fun ⟨h1, h2⟩ => ⟨h2.symm, h1.symm⟩⟩

/-- Witness for C7: in the sample environment, the URI "/x" resolves to
servlet 3, whose dependency token 9 upgrades, yielding callback 5. -/
theorem getServlet_spec_witness :
    getServlet envSample [("/x", 3)] "/x" = some (some 9, 5) :=
  (getServlet_spec envSample [("/x", 3)] "/x" (some 9) 5).mpr
    ⟨3, rfl, rfl, rfl, Or.inr ⟨9, rfl, rfl, rfl⟩⟩

end Poseidon
